import Mathlib

/-!
Verification of the scrapyd status surface: the credential gate
(`scrapyd/basicauth.py`) and the job-table rendering pipeline
(`scrapyd/website.py`).

Modelling conventions:
* Python `bytes` values are `List Nat` (one entry per byte).
* Python `datetime` values are `Int`, microseconds since 1970-01-01 00:00:00;
  `datetime.microsecond` equals the value modulo 1000000 (floor semantics).
* Python `timedelta` values are `Int`, total microseconds; the normalized
  `timedelta.microseconds` attribute equals the value modulo 1000000
  (floor semantics, CPython normalizes to `0 <= microseconds < 10^6`).
  Lean's `%` on `Int` (`Int.emod`) agrees with Python's `%` for a positive
  modulus, so both attributes are embedded as `x % 1000000`.
* Deferred results (`defer.succeed` / `defer.fail`) become an inductive
  result type.
-/

/-! ### Rendering helpers for Python `str()` of datetime and timedelta -/

/-- Left-pad the decimal form of `n` with zeros to width `w`
(Python `"%0Nd" % n` for nonnegative `n`). -/
def padNat (w : Nat) (n : Nat) : String :=
  let s := toString n
  String.mk (List.replicate (w - s.length) '0') ++ s

/-- Days since 1970-01-01 to a civil (year, month, day) triple, proleptic
Gregorian calendar (the standard civil-from-days algorithm). -/
def civilFromDays (z0 : Int) : Int × Nat × Nat :=
  let z := z0 + 719468
  let era := z / 146097
  let doe := (z - era * 146097).toNat
  let yoe := (doe - doe / 1460 + doe / 36524 - doe / 146096) / 365
  let y : Int := (yoe : Int) + era * 400
  let doy := doe - (365 * yoe + yoe / 4 - yoe / 100)
  let mp := (5 * doy + 2) / 153
  let d := doy - (153 * mp + 2) / 5 + 1
  let m := if mp < 10 then mp + 3 else mp - 9
  (y + (if m ≤ 2 then 1 else 0), m, d)

/-- Microseconds per day. -/
def usPerDay : Int := 86400000000

/-- Python `str(datetime)`: `YYYY-MM-DD HH:MM:SS[.ffffff]`. -/
def datetimeStr (t : Int) : String :=
  let days := t / usPerDay
  let rem := (t % usPerDay).toNat
  let secs := rem / 1000000
  let us := rem % 1000000
  let c := civilFromDays days
  let ys := if c.1 < 0 then "-" ++ padNat 4 (-c.1).toNat else padNat 4 c.1.toNat
  ys ++ "-" ++ padNat 2 c.2.1 ++ "-" ++ padNat 2 c.2.2 ++ " " ++
    padNat 2 (secs / 3600) ++ ":" ++ padNat 2 (secs % 3600 / 60) ++ ":" ++
    padNat 2 (secs % 60) ++
    (if us = 0 then "" else "." ++ padNat 6 us)

/-- Python `str(timedelta)`: `[D day(s), ]H:MM:SS[.ffffff]` with the
normalized (floor) day/second/microsecond decomposition. -/
def timedeltaStr (t : Int) : String :=
  let days := t / usPerDay
  let rem := (t % usPerDay).toNat
  let secs := rem / 1000000
  let us := rem % 1000000
  let hms := toString (secs / 3600) ++ ":" ++ padNat 2 (secs % 3600 / 60) ++ ":" ++
    padNat 2 (secs % 60)
  (if days = 0 then ""
   else toString days ++ " day" ++ (if days = 1 ∨ days = -1 then "" else "s") ++ ", ") ++
    hms ++ (if us = 0 then "" else "." ++ padNat 6 us)

/-! ### `scrapyd/basicauth.py` -/

/-- The avatar interfaces a caller can request from the realm.
`iResource` embeds `twisted.web.resource.IResource`; `other n` stands for
any other interface object. -/
inductive Interface
  | iResource
  | other (n : Nat)
deriving DecidableEq

/-- Result of `PublicHTMLRealm.requestAvatar`: either the
`(IResource, resource, logout)` triple (the logout callback `lambda: None`
carries no information and is omitted), or the `NotImplementedError`
raised for every other requested capability (the spec names this failure
`UnsupportedCapability`). -/
inductive AvatarResult (R : Type)
  | avatar (iface : Interface) (resource : R)
  | notImplementedError
deriving DecidableEq

/-- `PublicHTMLRealm`: holds the single protected resource tree.
The resource handle type `R` is opaque to the realm. -/
structure PublicHTMLRealm (R : Type) where
  resource : R

/-- `PublicHTMLRealm.requestAvatar(avatarId, mind, *interfaces)`:
if `IResource in interfaces`, return `(IResource, self.resource, lambda: None)`;
otherwise raise `NotImplementedError()`. The unused `mind` argument is
omitted; `avatarId` is kept to state identity-independence. -/
def requestAvatar {R : Type} (self : PublicHTMLRealm R) (avatarId : List Nat)
    (interfaces : List Interface) : AvatarResult R :=
  let _ := avatarId
  if Interface.iResource ∈ interfaces then
    .avatar .iResource self.resource
  else
    .notImplementedError

/-- Result of `StringCredentialsChecker.requestAvatarId`:
`defer.succeed(avatarId)` or `defer.fail(error.UnauthorizedLogin())`. -/
inductive AuthResult
  | succeed (avatarId : List Nat)
  | unauthorizedLogin
deriving DecidableEq

/-- `StringCredentialsChecker`: the single configured credential pair,
stored UTF-8 encoded (bytes). -/
structure StringCredentialsChecker where
  username : List Nat
  password : List Nat

/-- `StringCredentialsChecker.requestAvatarId(credentials)`: succeed with the
presented username when both presented fields equal the configured bytes,
otherwise fail with `UnauthorizedLogin`. (The source also prints the
presented and configured credentials for debugging; that side effect has no
bearing on the returned value and is not modelled.) -/
def requestAvatarId (self : StringCredentialsChecker)
    (credUsername credPassword : List Nat) : AuthResult :=
  if credUsername = self.username ∧ credPassword = self.password then
    .succeed credUsername
  else
    .unauthorizedLogin

/-! ### `scrapyd/website.py`: time truncation -/

/-- `microsec_trunc(timelike)`: subtract the microsecond component.
For a `datetime`, `timelike.microsecond = t % 1000000`; for a normalized
`timedelta`, `timelike.microseconds = t % 1000000` as well (floor
semantics), so one definition covers both branches of the Python
`hasattr` dispatch. -/
def microsec_trunc (t : Int) : Int :=
  t - t % 1000000

/-! ### `scrapyd/website.py`: data model of the rendering inputs -/

/-- A pending-queue message, as returned by `queue.list()`:
`name` is the spider name (dict key `'name'`), `job` is the job id
(dict key `'_job'`). -/
structure QueueMessage where
  name : String
  job : String
deriving DecidableEq

/-- A running process record from `root.launcher.processes.values()`. -/
structure Process where
  project : String
  spider : String
  job : String
  pid : Int
  start_time : Int
deriving DecidableEq

/-- A finished job record from `root.launcher.finished`. -/
structure FinishedJob where
  project : String
  spider : String
  job : String
  start_time : Int
  end_time : Int
deriving DecidableEq

/-- The state the `Jobs` resource reads while rendering:
`queues` is `root.poller.queues` (an insertion-ordered dict, embedded as an
association list), `processes` is `root.launcher.processes.values()` in
iteration order, `finished` is `root.launcher.finished`, `local_items` is
the items-browsable flag, `cancel_available` embeds
`b'cancel.json' in root.children`, and `logsdir` is `root.logsdir`. -/
structure JobsState where
  queues : List (String × List QueueMessage)
  processes : List Process
  finished : List FinishedJob
  local_items : Bool
  cancel_available : Bool
  logsdir : String

/-- A cell value before `'%s'` formatting: a string, a `datetime`, a
`timedelta`, or an integer (the pid). -/
inductive Cell
  | text (s : String)
  | datetime (us : Int)
  | timedelta (us : Int)
  | intval (n : Int)
deriving DecidableEq

/-- Python `'%s' % cell`. -/
def cellStr : Cell → String
  | .text s => s
  | .datetime us => datetimeStr us
  | .timedelta us => timedeltaStr us
  | .intval n => toString n

/-! ### `scrapyd/website.py`: the `Jobs` renderer -/

/-- `Jobs.header_cols`: the fixed column list. -/
def header_cols : List String :=
  ["Project", "Spider",
   "Job", "PID",
   "Start", "Runtime", "Finish",
   "Log", "Items",
   "Cancel"]

/-- The CSS rule `#jobs>*>tr>*:nth-child(N) {display: none}` hiding the
`N`-th column (`'#jobs>*>tr>*:nth-child(%d) \x7bdisplay: none\x7d' % col_idx`). -/
def nthChildHideRule (n : Nat) : String :=
  "#jobs>*>tr>*:nth-child(" ++ toString n ++ ") \x7bdisplay: none\x7d"

/-- `Jobs.gen_css` before the `'\n'.join`: two base rules, then the
Items-hiding rule when `local_items` is false, then the Cancel-hiding rule
when the `cancel.json` child is absent. -/
def gen_css_list (local_items cancel_available : Bool) : List String :=
  ["#jobs>thead td \x7btext-align: center; font-weight: bold\x7d",
   "#jobs>tbody>tr:first-child \x7bbackground-color: #eee\x7d"]
  ++ (if local_items then [] else [nthChildHideRule (header_cols.indexOf "Items" + 1)])
  ++ (if cancel_available then [] else [nthChildHideRule (header_cols.indexOf "Cancel" + 1)])

/-- `Jobs.gen_css`: the joined stylesheet. -/
def gen_css (local_items cancel_available : Bool) : String :=
  String.intercalate "\n" (gen_css_list local_items cancel_available)

/-- `Jobs.cancel_button(project=..., jobid=..., base_path=...)`: the cancel
form template with the three placeholders substituted. -/
def cancel_button (project jobid base_path : String) : String :=
  "\n    <form method=\"post\" action=\"" ++ base_path ++ "/cancel.json\">\n" ++
  "    <input type=\"hidden\" name=\"project\" value=\"" ++ project ++ "\"/>\n" ++
  "    <input type=\"hidden\" name=\"job\" value=\"" ++ jobid ++ "\"/>\n" ++
  "    <input type=\"submit\" style=\"float: left;\" value=\"Cancel\"/>\n" ++
  "    </form>\n    "

/-- One rendered cell: `'<td>%s</td>' % ('' if c is None else c)`. -/
def td_cell (c : Option Cell) : String :=
  "<td>" ++ (match c with | none => "" | some c => cellStr c) ++ "</td>"

/-- The common tail of `Jobs.prep_row`: wrap each cell in `<td>`, blanks
for `None`, and join inside `<tr>`. -/
def prep_row_cells (cells : List (Option Cell)) : String :=
  "<tr>" ++ String.join (cells.map td_cell) ++ "</tr>"

/-- The non-dict branch of `Jobs.prep_row`: the assertion
`len(cells) == len(header_cols)` is embedded as a guard (`none` models the
`AssertionError`). -/
def prep_row_list (cells : List (Option Cell)) : Option String :=
  if cells.length = header_cols.length then some (prep_row_cells cells) else none

/-- The dict branch of `Jobs.prep_row`: `[cells.get(k) for k in header_cols]`. -/
def row_of_dict (cells : String → Option Cell) : List (Option Cell) :=
  header_cols.map cells

/-- `Jobs.prep_row` applied to a dict. -/
def prep_row_dict (cells : String → Option Cell) : String :=
  prep_row_cells (row_of_dict cells)

/-- Modelled from the spec: `job_log_url` lives in `scrapyd.jobstorage`,
which is not among the sources; the spec says only that the log-location is
deterministically derived from the record's project, spider and job id. -/
def job_log_url (project spider job : String) : String :=
  "/" ++ project ++ "/" ++ spider ++ "/" ++ job ++ ".log"

/-- Modelled from the spec: `job_items_url` lives in `scrapyd.jobstorage`,
which is not among the sources; the spec says only that the items-location
is deterministically derived from the record's project, spider and job id. -/
def job_items_url (project spider job : String) : String :=
  "/" ++ project ++ "/" ++ spider ++ "/" ++ job ++ ".jl"

/-- The href of the Log link of a running or finished row:
`f'/{self.root.logsdir}{self.base_path}{job_log_url(p)}'`. -/
def log_href (logsdir base_path project spider job : String) : String :=
  "/" ++ logsdir ++ base_path ++ job_log_url project spider job

/-- The href of the Items link of a running or finished row:
`f'{self.base_path}{job_items_url(p)}'`. -/
def items_href (base_path project spider job : String) : String :=
  base_path ++ job_items_url project spider job

/-- The cell dict built by `Jobs.prep_tab_pending` for one queue message. -/
def pending_cells (project : String) (m : QueueMessage) (base_path : String) :
    String → Option Cell := fun k =>
  if k = "Project" then some (.text project)
  else if k = "Spider" then some (.text m.name)
  else if k = "Job" then some (.text m.job)
  else if k = "Cancel" then some (.text (cancel_button project m.job base_path))
  else none

/-- The cell dict built by `Jobs.prep_tab_running` for one process
(`now` embeds the `datetime.now()` call). -/
def running_cells (p : Process) (now : Int) (base_path logsdir : String) :
    String → Option Cell := fun k =>
  if k = "Project" then some (.text p.project)
  else if k = "Spider" then some (.text p.spider)
  else if k = "Job" then some (.text p.job)
  else if k = "PID" then some (.intval p.pid)
  else if k = "Start" then some (.datetime (microsec_trunc p.start_time))
  else if k = "Runtime" then some (.timedelta (microsec_trunc (now - p.start_time)))
  else if k = "Log" then
    some (.text ("<a href=\"" ++ log_href logsdir base_path p.project p.spider p.job ++ "\">Log</a>"))
  else if k = "Items" then
    some (.text ("<a href=\"" ++ items_href base_path p.project p.spider p.job ++ "\">Items</a>"))
  else if k = "Cancel" then some (.text (cancel_button p.project p.job base_path))
  else none

/-- The cell dict built by `Jobs.prep_tab_finished` for one finished job. -/
def finished_cells (p : FinishedJob) (base_path logsdir : String) :
    String → Option Cell := fun k =>
  if k = "Project" then some (.text p.project)
  else if k = "Spider" then some (.text p.spider)
  else if k = "Job" then some (.text p.job)
  else if k = "Start" then some (.datetime (microsec_trunc p.start_time))
  else if k = "Runtime" then some (.timedelta (microsec_trunc (p.end_time - p.start_time)))
  else if k = "Finish" then some (.datetime (microsec_trunc p.end_time))
  else if k = "Log" then
    some (.text ("<a href=\"" ++ log_href logsdir base_path p.project p.spider p.job ++ "\">Log</a>"))
  else if k = "Items" then
    some (.text ("<a href=\"" ++ items_href base_path p.project p.spider p.job ++ "\">Items</a>"))
  else none

/-- The structural row (one `Option Cell` per column) of a pending entry. -/
def pending_row (project : String) (m : QueueMessage) (base_path : String) :
    List (Option Cell) :=
  row_of_dict (pending_cells project m base_path)

/-- The structural row of a running process. -/
def running_row (p : Process) (now : Int) (base_path logsdir : String) :
    List (Option Cell) :=
  row_of_dict (running_cells p now base_path logsdir)

/-- The structural row of a finished job. -/
def finished_row (p : FinishedJob) (base_path logsdir : String) :
    List (Option Cell) :=
  row_of_dict (finished_cells p base_path logsdir)

/-- `Jobs.prep_tab_pending`: one row per message, per project queue, joined
with newlines (projects in dict order, messages in queue order). -/
def prep_tab_pending (st : JobsState) (base_path : String) : String :=
  String.intercalate "\n"
    (st.queues.flatMap fun pq =>
      pq.2.map fun m => prep_row_dict (pending_cells pq.1 m base_path))

/-- `Jobs.prep_tab_running`: one row per tracked process, joined with
newlines; `now` embeds the `datetime.now()` call made while rendering. -/
def prep_tab_running (st : JobsState) (base_path : String) (now : Int) : String :=
  String.intercalate "\n"
    (st.processes.map fun p => prep_row_dict (running_cells p now base_path st.logsdir))

/-- `Jobs.prep_tab_finished`: one row per finished job, joined with newlines. -/
def prep_tab_finished (st : JobsState) (base_path : String) : String :=
  String.intercalate "\n"
    (st.finished.map fun p => prep_row_dict (finished_cells p base_path st.logsdir))

/-- The header row `self.prep_row(self.header_cols)` (list branch; its
length assertion holds, see the C10 theorem). -/
def header_row : String :=
  prep_row_cells (header_cols.map fun s => some (.text s))

/-- `Jobs.prep_table`: header, then the Pending, Running and Finished
sections, each introduced by a `colspan`-wide `<th>` row. -/
def prep_table (st : JobsState) (base_path : String) (now : Int) : String :=
  "<table id=\"jobs\" border=\"1\">" ++
  "<thead>" ++ header_row ++ "</thead>" ++
  "<tbody>" ++
  "<tr><th colspan=\"" ++ toString header_cols.length ++ "\">Pending</th></tr>" ++
  prep_tab_pending st base_path ++
  "</tbody>" ++
  "<tbody>" ++
  "<tr><th colspan=\"" ++ toString header_cols.length ++ "\">Running</th></tr>" ++
  prep_tab_running st base_path now ++
  "</tbody>" ++
  "<tbody>" ++
  "<tr><th colspan=\"" ++ toString header_cols.length ++ "\">Finished</th></tr>" ++
  prep_tab_finished st base_path ++
  "</tbody>" ++
  "</table>"

/-- `Jobs.prep_doc`: the self-contained document around the table. -/
def prep_doc (st : JobsState) (base_path : String) (now : Int) : String :=
  "<html>" ++
  "<head>" ++
  "<title>Scrapyd</title>" ++
  "<style type=\"text/css\">" ++ gen_css st.local_items st.cancel_available ++ "</style>" ++
  "</head>" ++
  "<body><h1>Jobs</h1>" ++
  "<p><a href=\"./\">Go up</a></p>" ++
  prep_table st base_path now ++
  "</body>" ++
  "</html>"

/-! ### Concrete states used by counterexamples and witnesses -/

/-- A state whose only job is one running process, used to show the document
depends on the render time. -/
def nowVaryState : JobsState := ⟨[], [⟨"p", "s", "j", 1, 0⟩], [], true, true, "l"⟩

/-- A state with no running process (one pending entry, one finished job). -/
def emptyProcState : JobsState :=
  ⟨[("default", [⟨"quotes", "abc123"⟩])], [], [⟨"p", "s", "j", 0, 7⟩], true, false, "logs"⟩

/-- A state with one running process and `cancel_available = false`. -/
def noCancelState : JobsState := ⟨[], [⟨"p", "s", "j", 1, 0⟩], [], false, false, "logs"⟩

/-! ### Spec-side shapes used by refinement statements -/

/-- Reassociation of four appended strings, used to regroup section labels. -/
theorem append_group3 (a b c x : String) : a ++ (b ++ (c ++ x)) = (a ++ b ++ c) ++ x := by
  simp [String.append_assoc]

/-- Spec shape: a full-width section header row, one `<th>` spanning all
columns. -/
def th_row (label : String) : String :=
  "<tr><th colspan=\"" ++ toString header_cols.length ++ "\">" ++ label ++ "</th></tr>"

/-- Spec shape: a labeled table section, a full-width header row followed by
the section body rows. -/
def section_block (label rows : String) : String :=
  "<tbody>" ++ th_row label ++ rows ++ "</tbody>"

/-! ### Claims -/

/-- C1: for every configured pair and every presented pair,
`requestAvatarId` succeeds precisely when both presented fields equal the
configured bytes, the returned identity is then the presented username, and
in every other case the result is `UnauthorizedLogin`. -/
theorem C1_credential_check (c : StringCredentialsChecker) (u p : List Nat) :
    ((∃ a, requestAvatarId c u p = .succeed a) ↔ u = c.username ∧ p = c.password) ∧
    (requestAvatarId c u p = .succeed u ↔ u = c.username ∧ p = c.password) ∧
    (requestAvatarId c u p = .unauthorizedLogin ↔ ¬(u = c.username ∧ p = c.password)) := by
  unfold requestAvatarId
  by_cases h : u = c.username ∧ p = c.password <;> simp [h]

/-- C2: the table has exactly the fixed ten-column set; the CSS rule hiding
the ninth (Items) column is emitted precisely when `local_items` is false
and the rule hiding the tenth (Cancel) column precisely when the cancel
endpoint is absent; every dict-built row still carries all ten cells
whatever the flags (the row builders take no flags at all). -/
theorem C2_columns_and_visibility (li ca : Bool) :
    header_cols = ["Project", "Spider", "Job", "PID", "Start", "Runtime", "Finish",
        "Log", "Items", "Cancel"] ∧
    (nthChildHideRule 9 ∈ gen_css_list li ca ↔ li = false) ∧
    (nthChildHideRule 10 ∈ gen_css_list li ca ↔ ca = false) ∧
    header_cols.indexOf "Items" + 1 = 9 ∧
    header_cols.indexOf "Cancel" + 1 = 10 ∧
    (∀ cells : String → Option Cell, (row_of_dict cells).length = 10) := by
  refine ⟨rfl, ?_, ?_, by decide, by decide, ?_⟩
  · cases li <;> cases ca <;> decide
  · cases li <;> cases ca <;> decide
  · intro cells
    simp [row_of_dict, header_cols]

/-- C3: the Runtime cell of a running row is `now - start_time` truncated to
whole seconds, and the Runtime cell of a finished row is
`end_time - start_time` truncated to whole seconds — the latter built by
`finished_cells` / `prep_tab_finished`, which take no render-time argument
at all. A record rendered 90.7 seconds after its start shows `0:01:30`
(90 s), not `0:01:31`. -/
theorem C3_runtime_cells (p : Process) (q : FinishedJob) (now : Int) (bp ld : String) :
    running_cells p now bp ld "Runtime"
      = some (.timedelta (microsec_trunc (now - p.start_time))) ∧
    finished_cells q bp ld "Runtime"
      = some (.timedelta (microsec_trunc (q.end_time - q.start_time))) ∧
    microsec_trunc 90700000 = 90 * 1000000 ∧
    timedeltaStr (microsec_trunc 90700000) = "0:01:30" ∧
    timedeltaStr (91 * 1000000) = "0:01:31" :=
  ⟨rfl, rfl, by decide, by decide, by decide⟩

/-- C4: `microsec_trunc` is idempotent and never rounds up, on every
timestamp and duration value. -/
theorem C4_trunc_idempotent_le (x : Int) :
    microsec_trunc (microsec_trunc x) = microsec_trunc x ∧ microsec_trunc x ≤ x := by
  unfold microsec_trunc
  constructor <;> omega

/-- C5 counterexample: with base path `/pfx`, the Log link target of a
running row is `/logs/pfx/p/s/j.log`, which does not start with the base
path — so it is not of the form `base_path ++ location` for any
record-derived location, refuting the claim for the Log column. -/
theorem C5_counterexample :
    running_cells ⟨"p", "s", "j", 1, 0⟩ 0 "/pfx" "logs" "Log"
      = some (.text "<a href=\"/logs/pfx/p/s/j.log\">Log</a>") ∧
    "/pfx".data.isPrefixOf "/logs/pfx/p/s/j.log".data = false :=
  ⟨rfl, by decide⟩

/-- C5 amended: the Items link target of running and finished rows is
`base_path` followed by an items-location derived from the record's
project, spider and job id; the Log link target is `/` + the logs
directory + `base_path` + a log-location derived from the record. -/
theorem C5_link_targets (p : Process) (q : FinishedJob) (now : Int) (bp ld : String) :
    running_cells p now bp ld "Items"
      = some (.text ("<a href=\"" ++ (bp ++ job_items_url p.project p.spider p.job)
          ++ "\">Items</a>")) ∧
    finished_cells q bp ld "Items"
      = some (.text ("<a href=\"" ++ (bp ++ job_items_url q.project q.spider q.job)
          ++ "\">Items</a>")) ∧
    running_cells p now bp ld "Log"
      = some (.text ("<a href=\"" ++ ("/" ++ ld ++ bp ++ job_log_url p.project p.spider p.job)
          ++ "\">Log</a>")) ∧
    finished_cells q bp ld "Log"
      = some (.text ("<a href=\"" ++ ("/" ++ ld ++ bp ++ job_log_url q.project q.spider q.job)
          ++ "\">Log</a>")) :=
  ⟨rfl, rfl, rfl, rfl⟩

/-- C6 counterexample: in a state where the cancel endpoint is absent
(`cancel_available = false`), the single running row still has its Cancel
cell populated with the cancel form — refuting "populated iff
cancel_available" (hiding is done by CSS, not by omission). -/
theorem C6_counterexample :
    noCancelState.cancel_available = false ∧
    prep_tab_running noCancelState "" 0
      = prep_row_dict (running_cells ⟨"p", "s", "j", 1, 0⟩ 0 "" "logs") ∧
    running_cells ⟨"p", "s", "j", 1, 0⟩ 0 "" "logs" "Cancel"
      = some (.text (cancel_button "p" "j" "")) ∧
    (running_row ⟨"p", "s", "j", 1, 0⟩ 0 "" "logs")[9]? ≠ some none :=
  ⟨rfl, rfl, rfl, by decide⟩

/-- C6 amended: pending rows have blank PID, Start, Runtime, Finish, Log
and Items cells and always carry a cancel action in the Cancel cell
(regardless of the cancel flag, which only drives CSS hiding); running rows
have a blank Finish cell and always carry a cancel action in the Cancel
cell; finished rows have blank PID and Cancel cells. -/
theorem C6_row_blanks (project : String) (m : QueueMessage) (p : Process)
    (q : FinishedJob) (now : Int) (bp ld : String) :
    pending_cells project m bp "PID" = none ∧
    pending_cells project m bp "Start" = none ∧
    pending_cells project m bp "Runtime" = none ∧
    pending_cells project m bp "Finish" = none ∧
    pending_cells project m bp "Log" = none ∧
    pending_cells project m bp "Items" = none ∧
    pending_cells project m bp "Cancel" = some (.text (cancel_button project m.job bp)) ∧
    running_cells p now bp ld "Finish" = none ∧
    running_cells p now bp ld "Cancel" = some (.text (cancel_button p.project p.job bp)) ∧
    finished_cells q bp ld "PID" = none ∧
    finished_cells q bp ld "Cancel" = none :=
  ⟨rfl, rfl, rfl, rfl, rfl, rfl, rfl, rfl, rfl, rfl, rfl⟩

/-- C7: for every input, the table is the header followed by exactly three
labeled sections in the fixed order Pending, Running, Finished, each
introduced by a full-width (`colspan` = number of columns) header row. -/
theorem C7_table_sections (st : JobsState) (bp : String) (now : Int) :
    prep_table st bp now =
      "<table id=\"jobs\" border=\"1\">" ++ "<thead>" ++ header_row ++ "</thead>" ++
      section_block "Pending" (prep_tab_pending st bp) ++
      section_block "Running" (prep_tab_running st bp now) ++
      section_block "Finished" (prep_tab_finished st bp) ++
      "</table>" := by
  simp only [prep_table, section_block, th_row, String.append_assoc]
  rw [append_group3 "\">" "Pending" "</th></tr>",
      append_group3 "\">" "Running" "</th></tr>",
      append_group3 "\">" "Finished" "</th></tr>"]
  rfl

/-- C8: for every authenticated identity the realm hands out the single
protected resource tree — the same result for any two identities — and a
request that does not include the resource-serving capability fails
(`NotImplementedError`, the spec's `UnsupportedCapability`). -/
theorem C8_realm_single_resource {R : Type} (realm : PublicHTMLRealm R)
    (aid aid2 : List Nat) (ifs : List Interface) :
    (requestAvatar realm aid ifs = .avatar .iResource realm.resource ↔
      Interface.iResource ∈ ifs) ∧
    (requestAvatar realm aid ifs = .notImplementedError ↔ Interface.iResource ∉ ifs) ∧
    requestAvatar realm aid ifs = requestAvatar realm aid2 ifs := by
  unfold requestAvatar
  by_cases h : Interface.iResource ∈ ifs <;> simp [h]

set_option maxRecDepth 10000 in
/-- C9 counterexample: with the same data, flags and base path but two
different render times, the documents differ (the running row's Runtime
cell changes), so rendering is not a function of (data, flags, base_path)
alone. -/
theorem C9_counterexample :
    prep_doc nowVaryState "" 0 ≠ prep_doc nowVaryState "" 1000000 := by
  decide

/-- C9 amended: rendering is a pure function of (data, flags, base_path,
render time); the render time is consulted only for the Running section's
Runtime cells, so with no running process the documents of any two render
times coincide. -/
theorem C9_render_deterministic (st : JobsState) (bp : String) (n₁ n₂ : Int)
    (h : st.processes = []) : prep_doc st bp n₁ = prep_doc st bp n₂ := by
  simp [prep_doc, prep_table, prep_tab_running, h]

/-- C9 witness: the amended theorem applied to a concrete state with no
running process. -/
theorem C9_render_deterministic_witness :
    emptyProcState.processes = [] ∧
    prep_doc emptyProcState "/app" 0 = prep_doc emptyProcState "/app" 999999999 :=
  ⟨rfl, C9_render_deterministic emptyProcState "/app" 0 999999999 rfl⟩

/-- C10: the header row passes the length assertion and carries one cell
per column; every dict-built body row has exactly ten cells; an absent
(`None`) cell renders as an empty `<td>`. -/
theorem C10_row_cells :
    prep_row_list (header_cols.map fun s => some (.text s)) = some header_row ∧
    (header_cols.map fun s => some (Cell.text s)).length = 10 ∧
    (∀ cells : String → Option Cell, (row_of_dict cells).length = 10) ∧
    td_cell none = "<td></td>" ∧
    header_row = "<tr><td>Project</td><td>Spider</td><td>Job</td><td>PID</td>" ++
      "<td>Start</td><td>Runtime</td><td>Finish</td><td>Log</td><td>Items</td>" ++
      "<td>Cancel</td></tr>" := by
  refine ⟨by decide, by decide, ?_, rfl, by decide⟩
  intro cells
  simp [row_of_dict, header_cols]
